import Mathlib

/-!
Verification development for the health-sites normalizer script
(`src/frontend/public/data/process_healthsites.py`).

The script loads a CSV with pandas, maps each row to a nested facility
record, removes falsy top-level fields, tabulates summary counts, and
writes two JSON files.  We embed the transform shallowly:

* a pandas cell is either NaN (blank cell — `pd.read_csv` turns empty
  cells into `float("nan")`) or a string (`PyVal`);
* JSON-serializable Python values become `JVal`;
* Python truthiness becomes `pyTruthy` / `truthy` (note that
  `bool(float("nan"))` is `True` in Python, which matters for the
  `row["amenity"] or row["healthcare"]` fallback);
* `float(...)` / `int(...)` become fallible decimal parsers, and the
  uncaught `ValueError` becomes `Except.error` propagated through the
  whole run.
-/

/-- A pandas cell value as seen by the script: NaN for a blank cell, or the
cell text.  Columns holding numbers are still modelled as text cells; the
script applies `float` / `int` to them itself. -/
inductive PyVal where
  | nan : PyVal
  | str (s : String) : PyVal
deriving DecidableEq

/-- Python truthiness of a cell value.  `bool` of NaN is `True` (NaN is a
non-zero float); a string is truthy iff non-empty. -/
def pyTruthy : PyVal → Bool
  | .nan => true
  | .str s => s ≠ ""

/-- `pd.isna` on a cell value. -/
def pd_isna : PyVal → Bool
  | .nan => true
  | .str _ => false

/-- Python `x or y`: return `x` when truthy, else `y`. -/
def pyOr (x y : PyVal) : PyVal :=
  if pyTruthy x then x else y

/-- Python `str(...)` on a cell value: `str(float("nan"))` is `"nan"`. -/
def pyStr : PyVal → String
  | .nan => "nan"
  | .str s => s

/-- One input row, with the CSV columns the script reads.  Blank cells are
`PyVal.nan`. -/
structure Row where
  uuid : PyVal
  name : PyVal
  amenity : PyVal
  healthcare : PyVal
  Lattitude : PyVal
  Longitude : PyVal
  addr_city : PyVal
  addr_street : PyVal
  addr_postcode : PyVal
  operator : PyVal
  operator_type : PyVal
  operational_status : PyVal
  opening_hours : PyVal
  beds : PyVal
  staff_doctors : PyVal
  staff_nurses : PyVal
  speciality : PyVal
  dispensing : PyVal
  emergency : PyVal
  wheelchair : PyVal
  insurance : PyVal
  water_source : PyVal
  electricity : PyVal
  completeness : PyVal
  osm_id : PyVal
  changeset_timestamp : PyVal
deriving DecidableEq

/-- The all-blank row, used as a base for concrete test rows. -/
def blankRow : Row :=
  ⟨.nan, .nan, .nan, .nan, .nan, .nan, .nan, .nan, .nan, .nan, .nan, .nan,
   .nan, .nan, .nan, .nan, .nan, .nan, .nan, .nan, .nan, .nan, .nan, .nan,
   .nan, .nan⟩

/-- Numeric value of a decimal digit character, `none` otherwise. -/
def digitVal (c : Char) : Option Nat :=
  if '0' ≤ c ∧ c ≤ '9' then some (c.toNat - 48) else none

/-- Accumulate a digit string into a number; fail at the first non-digit. -/
def parseDigitsAux : List Char → Nat → Option Nat
  | [], acc => some acc
  | c :: rest, acc =>
    match digitVal c with
    | some d => parseDigitsAux rest (acc * 10 + d)
    | none => none

/-- A non-empty all-digit character list parses; anything else does not. -/
def parseNatDigits : List Char → Option Nat
  | [] => none
  | c :: rest => parseDigitsAux (c :: rest) 0

/-- Split a character list at every occurrence of `c`, keeping empty
pieces — the behaviour of Python `str.split(sep)` with a one-character
separator. -/
def splitOnChar (c : Char) : List Char → List (List Char)
  | [] => [[]]
  | x :: rest =>
    if x = c then [] :: splitOnChar c rest
    else
      match splitOnChar c rest with
      | [] => [[x]]
      | g :: gs => (x :: g) :: gs

/-- Strip a leading sign; `true` means negative. -/
def stripSign : List Char → Bool × List Char
  | '-' :: rest => (true, rest)
  | '+' :: rest => (false, rest)
  | cs => (false, cs)

/-- Models Python `float(...)` on plain decimal literals (optional sign,
digits, optional fractional part).  Strings outside this form yield `none`,
matching the `ValueError` Python raises on non-numeric text. -/
def parseFloat (s : String) : Option Rat :=
  let signed := stripSign s.data
  let mag : Option Rat :=
    match splitOnChar '.' signed.2 with
    | [w] => (parseNatDigits w).map (fun n => mkRat n 1)
    | [w, f] =>
      match parseNatDigits w, parseNatDigits f with
      | some wn, some fn =>
        some (mkRat (wn * 10 ^ f.length + fn) (10 ^ f.length))
      | _, _ => none
    | _ => none
  mag.map (fun q => if signed.1 then -q else q)

/-- Models Python `int(...)` on decimal integer literals (optional sign,
digits).  Anything else — including `"2.5"` — yields `none`, matching the
`ValueError` Python raises. -/
def parseInt (s : String) : Option Int :=
  let signed := stripSign s.data
  (parseNatDigits signed.2).map
    (fun n => if signed.1 then -(n : Int) else (n : Int))

/-- A JSON-serializable Python value, as built by the script: `None`,
a number, a string, a list, or a dict (insertion-ordered key/value pairs). -/
inductive JVal where
  | null : JVal
  | num (q : Rat) : JVal
  | str (s : String) : JVal
  | list (xs : List JVal) : JVal
  | obj (kvs : List (String × JVal)) : JVal

/-- Python truthiness of a built value: `None`, `0`, `""`, `[]` and `{}`
are falsy, everything else truthy. -/
def truthy : JVal → Bool
  | .null => false
  | .num q => q ≠ 0
  | .str s => s ≠ ""
  | .list xs => !xs.isEmpty
  | .obj kvs => !kvs.isEmpty

/-- Dict key lookup (`d[k]` when the key is present). -/
def jLookup (v : JVal) (k : String) : Option JVal :=
  match v with
  | .obj kvs => kvs.lookup k
  | _ => none

/-- Python `d.get(k, default)`. -/
def jGetD (v : JVal) (k : String) (d : JVal) : JVal :=
  (jLookup v k).getD d

/-- `row[c] if pd.notna(row[c]) else None` — the pattern used for every
plain string column. -/
def optStr : PyVal → JVal
  | .nan => .null
  | .str s => .str s

/-- `float(row[c]) if pd.notna(row[c]) else None`, with the uncaught
`ValueError` as `Except.error`. -/
def floatOpt : PyVal → Except String JVal
  | .nan => .ok .null
  | .str s =>
    match parseFloat s with
    | some q => .ok (.num q)
    | none => .error ("could not convert string to float: " ++ s)

/-- `int(row[c]) if pd.notna(row[c]) and row[c] != "" else None`, with the
uncaught `ValueError` as `Except.error`. -/
def intOpt : PyVal → Except String JVal
  | .nan => .ok .null
  | .str s =>
    if s = "" then .ok .null
    else
      match parseInt s with
      | some n => .ok (.num (mkRat n 1))
      | none => .error ("invalid literal for int with base 10: " ++ s)

/-- `float(row["completeness"]) if pd.notna(row["completeness"]) else 0` —
unlike the other numeric fields, this one defaults to `0`, not `None`. -/
def completenessVal : PyVal → Except String JVal
  | .nan => .ok (.num 0)
  | .str s =>
    match parseFloat s with
    | some q => .ok (.num q)
    | none => .error ("could not convert string to float: " ++ s)

/-- `str(row["speciality"]).split(";") if pd.notna(row["speciality"]) and
row["speciality"] != "" else []`. -/
def specialitiesVal : PyVal → JVal
  | .nan => .list []
  | .str s =>
    if s = "" then .list []
    else .list ((splitOnChar ';' s.data).map (fun g => .str (String.mk g)))

/-- The nested `facility` dict literal from the script, given the facility
type string `ts` and the already-parsed numeric fields.  Key order follows
the source literal. -/
def buildFacility (r : Row) (ts : String)
    (lat lon beds sdoc snur comp : JVal) : JVal :=
  .obj
    [ ("id", .str (pyStr r.uuid)),
      ("name",
        match r.name with
        | .str s => .str s
        | .nan => .str ("Unnamed " ++ ts)),
      ("type", .str ts),
      ("location", .obj
        [ ("latitude", lat),
          ("longitude", lon),
          ("city", optStr r.addr_city),
          ("address", optStr r.addr_street),
          ("postcode", optStr r.addr_postcode) ]),
      ("details", .obj
        [ ("operator", optStr r.operator),
          ("operator_type", optStr r.operator_type),
          ("operational_status", optStr r.operational_status),
          ("opening_hours", optStr r.opening_hours),
          ("beds", beds),
          ("staff_doctors", sdoc),
          ("staff_nurses", snur),
          ("specialities", specialitiesVal r.speciality) ]),
      ("services", .obj
        [ ("dispensing", optStr r.dispensing),
          ("emergency", optStr r.emergency),
          ("wheelchair", optStr r.wheelchair),
          ("insurance", optStr r.insurance) ]),
      ("infrastructure", .obj
        [ ("water_source", optStr r.water_source),
          ("electricity", optStr r.electricity) ]),
      ("metadata", .obj
        [ ("completeness", comp),
          ("osm_id", .str (pyStr r.osm_id)),
          ("last_updated", optStr r.changeset_timestamp) ]) ]

/-- The cleanup step
`facility = {k: v for k, v in facility.items() if v}` — one-level removal
of falsy values; sub-section contents are untouched. -/
def sparseFilter : JVal → JVal
  | .obj kvs => .obj (kvs.filter (fun kv => truthy kv.2))
  | v => v

/-- One loop iteration of `process_healthsites`: compute
`facility_type = row["amenity"] or row["healthcare"]`, skip the row when
`pd.isna(facility_type)`, otherwise build the facility dict (numeric
parses in source evaluation order, each able to abort the run) and apply
the sparse filter.  `.ok none` = row skipped; `.error` = uncaught
`ValueError` aborting the whole run. -/
def processRow (r : Row) : Except String (Option JVal) :=
  match pyOr r.amenity r.healthcare with
  | .nan => .ok none
  | .str ts =>
    match floatOpt r.Lattitude with
    | .error e => .error e
    | .ok lat =>
      match floatOpt r.Longitude with
      | .error e => .error e
      | .ok lon =>
        match intOpt r.beds with
        | .error e => .error e
        | .ok beds =>
          match intOpt r.staff_doctors with
          | .error e => .error e
          | .ok sdoc =>
            match intOpt r.staff_nurses with
            | .error e => .error e
            | .ok snur =>
              match completenessVal r.completeness with
              | .error e => .error e
              | .ok comp =>
                .ok (some (sparseFilter
                  (buildFacility r ts lat lon beds sdoc snur comp)))

/-- `process_healthsites`: iterate the rows in order, append each produced
facility, propagate the first uncaught parse error. -/
def process_healthsites : List Row → Except String (List JVal)
  | [] => .ok []
  | r :: rs =>
    match processRow r with
    | .error e => .error e
    | .ok none => process_healthsites rs
    | .ok (some f) =>
      match process_healthsites rs with
      | .error e => .error e
      | .ok fs => .ok (f :: fs)

/-- The produced facility of a row, if any: `some f` when the row yields a
facility, `none` when it is skipped or aborts the run. -/
def rowOpt (r : Row) : Option JVal :=
  match processRow r with
  | .ok (some f) => some f
  | _ => none

/-- Increment the count of key `k` in an insertion-ordered counter —
`d[k] = d.get(k, 0) + 1` on a Python dict. -/
def countIncr (k : String) : List (String × Nat) → List (String × Nat)
  | [] => [(k, 1)]
  | (q, n) :: rest =>
    if q = k then (q, n + 1) :: rest else (q, n) :: countIncr k rest

/-- `facility.get("type", "unknown")`.  In every produced facility the
`type` value is built by `str(...)`, so it is a string whenever present;
the non-string arm is unreachable and mapped to the same default. -/
def typeKey (f : JVal) : String :=
  match jLookup f "type" with
  | some (.str s) => s
  | some _ => "unknown"
  | none => "unknown"

/-- The `facility_types` tally: one `get(..., 0) + 1` per produced
facility, in sequence order. -/
def facilityTypes (fs : List JVal) : List (String × Nat) :=
  fs.foldl (fun m f => countIncr (typeKey f) m) []

/-- One step of the `by_location` tally:
`city = facility.get("location", {}).get("city", "Unknown")`, counted only
when truthy.  In every produced facility the `city` value is a string or
`None`; `None` is falsy and skipped, so the non-string arm never counts. -/
def byLocationStep (m : List (String × Nat)) (f : JVal) : List (String × Nat) :=
  match jGetD (jGetD f "location" (.obj [])) "city" (.str "Unknown") with
  | .str s => if s ≠ "" then countIncr s m else m
  | _ => m

/-- The `by_location` tally over the produced sequence. -/
def byLocation (fs : List JVal) : List (String × Nat) :=
  fs.foldl byLocationStep []

/-- `sum(1 for f in fs if f.get("location", {}).get("latitude"))` — the
`with_coordinates` counter: Python truthiness of the latitude value. -/
def withCoordinates (fs : List JVal) : Nat :=
  fs.countP (fun f => truthy (jGetD (jGetD f "location" (.obj [])) "latitude" .null))

/-- Character-list prefix test (`str.startswith`). -/
def isPrefixChars : List Char → List Char → Bool
  | [], _ => true
  | _ :: _, [] => false
  | c :: cs, d :: ds => c = d && isPrefixChars cs ds

/-- `sum(1 for f in fs if f.get("name") and f["name"].startswith("Unnamed")
== False)` — the `with_name` counter.  In every produced facility the
`name` value is a string whenever present, so the non-string arm is
unreachable. -/
def withName (fs : List JVal) : Nat :=
  fs.countP (fun f =>
    match jGetD f "name" .null with
    | .str s => s ≠ "" && !(isPrefixChars "Unnamed".data s.data)
    | _ => false)

/-- `sum(1 for f in fs if f.get("details", {}).get("operator"))` — the
`with_operator` counter. -/
def withOperator (fs : List JVal) : Nat :=
  fs.countP (fun f => truthy (jGetD (jGetD f "details" (.obj [])) "operator" .null))

/-- The `summary` dict built by the script (dict fields in source order;
the two tallies are filled by the two loops that follow the literal). -/
structure Summary where
  total_facilities : Nat
  facility_types : List (String × Nat)
  by_location : List (String × Nat)
  with_coordinates : Nat
  with_name : Nat
  with_operator : Nat
deriving DecidableEq

/-- Build the summary over exactly the produced sequence. -/
def mkSummary (fs : List JVal) : Summary :=
  { total_facilities := fs.length
    facility_types := facilityTypes fs
    by_location := byLocation fs
    with_coordinates := withCoordinates fs
    with_name := withName fs
    with_operator := withOperator fs }

/-- The summary as a JSON value, with the key order of the source dict. -/
def summaryJVal (fs : List JVal) : JVal :=
  .obj
    [ ("total_facilities", .num (mkRat (mkSummary fs).total_facilities 1)),
      ("facility_types", .obj
        ((mkSummary fs).facility_types.map
          (fun kn => (kn.1, JVal.num (mkRat kn.2 1))))),
      ("by_location", .obj
        ((mkSummary fs).by_location.map
          (fun kn => (kn.1, JVal.num (mkRat kn.2 1))))),
      ("data_quality", .obj
        [ ("with_coordinates", .num (mkRat (mkSummary fs).with_coordinates 1)),
          ("with_name", .num (mkRat (mkSummary fs).with_name 1)),
          ("with_operator", .num (mkRat (mkSummary fs).with_operator 1)) ]) ]

/-- The full-output JSON structure:
`{"facilities": [...], "summary": {...}}`. -/
def fullOutput (rows : List Row) : Except String JVal :=
  match process_healthsites rows with
  | .error e => .error e
  | .ok fs => .ok (.obj [("facilities", .list fs), ("summary", summaryJVal fs)])

/-- `compact_version`: the sample file structure,
`{"summary": {...}, "sample_facilities": processed_facilities[:50]}`. -/
def compact_version (fs : List JVal) : JVal :=
  .obj [("summary", summaryJVal fs), ("sample_facilities", .list (fs.take 50))]

/-- The sample-output JSON structure of a run. -/
def compactOutput (rows : List Row) : Except String JVal :=
  match process_healthsites rows with
  | .error e => .error e
  | .ok fs => .ok (compact_version fs)

mutual

/-- Serialization of a JSON value to text, modelling `json.dump`: a pure
function of the value (whitespace and number formatting are abstracted;
only functional dependence on the value matters for the claims). -/
def serialize : JVal → String
  | .null => "null"
  | .num q => toString q.num ++ "e" ++ toString q.den
  | .str s => "\x22" ++ s ++ "\x22"
  | .list xs => "[" ++ serializeList xs ++ "]"
  | .obj kvs => "\x7b" ++ serializeObj kvs ++ "\x7d"

/-- Comma-joined serialization of array elements. -/
def serializeList : List JVal → String
  | [] => ""
  | [x] => serialize x
  | x :: y :: rest => serialize x ++ ", " ++ serializeList (y :: rest)

/-- Comma-joined serialization of object entries. -/
def serializeObj : List (String × JVal) → String
  | [] => ""
  | [kv] => "\x22" ++ kv.1 ++ "\x22: " ++ serialize kv.2
  | kv :: kw :: rest =>
    "\x22" ++ kv.1 ++ "\x22: " ++ serialize kv.2 ++ ", " ++ serializeObj (kw :: rest)

end

/-- The pair of serialized output files of one run (full file, sample
file), or the parse error that aborted the run. -/
def runOutputs (rows : List Row) : Except String (String × String) :=
  match fullOutput rows, compactOutput rows with
  | .ok a, .ok b => .ok (serialize a, serialize b)
  | .error e, _ => .error e
  | _, .error e => .error e

example : parseFloat "-13.9" = some (-(mkRat 139 10)) := by decide
example : parseFloat "-13.9" = some (-(139 / 10 : Rat)) := by
  have h : parseFloat "-13.9" = some (-(mkRat 139 10)) := by decide
  rw [h]; norm_num [mkRat]
example : parseFloat "abc" = none := by decide
example : parseInt "12" = some 12 := by decide
example : parseInt "2.5" = none := by decide

/-! Shape lemmas about the per-row transform. -/

/-- A successfully parsed optional float field is `None` or a number. -/
lemma floatOpt_ok {v : PyVal} {j : JVal} (h : floatOpt v = .ok j) :
    j = .null ∨ ∃ q, j = .num q := by
  unfold floatOpt at h
  split at h
  · injection h with h
    exact Or.inl h.symm
  · split at h
    next q hp =>
      injection h with h
      exact Or.inr ⟨q, h.symm⟩
    next hp => cases h

/-- A successfully parsed optional int field is `None` or a number. -/
lemma intOpt_ok {v : PyVal} {j : JVal} (h : intOpt v = .ok j) :
    j = .null ∨ ∃ q, j = .num q := by
  unfold intOpt at h
  split at h
  · injection h with h
    exact Or.inl h.symm
  · split at h
    · injection h with h
      exact Or.inl h.symm
    · split at h
      next n hp =>
        injection h with h
        exact Or.inr ⟨_, h.symm⟩
      next hp => cases h

/-- A successfully parsed completeness field is always a number. -/
lemma completenessVal_ok {v : PyVal} {j : JVal} (h : completenessVal v = .ok j) :
    ∃ q, j = .num q := by
  unfold completenessVal at h
  split at h
  · injection h with h
    exact ⟨0, h.symm⟩
  · split at h
    next q hp =>
      injection h with h
      exact ⟨q, h.symm⟩
    next hp => cases h

/-- Eliminating a successful, non-skipped run of the per-row transform:
the facility-type gate passed, every numeric parse succeeded, and the
produced facility is the sparse-filtered built record. -/
lemma processRow_ok_some {r : Row} {f : JVal} (h : processRow r = .ok (some f)) :
    ∃ ts lat lon beds sdoc snur comp,
      pyOr r.amenity r.healthcare = .str ts ∧
      floatOpt r.Lattitude = .ok lat ∧
      floatOpt r.Longitude = .ok lon ∧
      intOpt r.beds = .ok beds ∧
      intOpt r.staff_doctors = .ok sdoc ∧
      intOpt r.staff_nurses = .ok snur ∧
      completenessVal r.completeness = .ok comp ∧
      f = sparseFilter (buildFacility r ts lat lon beds sdoc snur comp) := by
  unfold processRow at h
  split at h
  · cases h
  next ts hg =>
    split at h
    · cases h
    next lat h1 =>
      split at h
      · cases h
      next lon h2 =>
        split at h
        · cases h
        next beds h3 =>
          split at h
          · cases h
          next sdoc h4 =>
            split at h
            · cases h
            next snur h5 =>
              split at h
              · cases h
              next comp h6 =>
                injection h with h
                injection h with h
                exact ⟨ts, lat, lon, beds, sdoc, snur, comp,
                  hg, h1, h2, h3, h4, h5, h6, h.symm⟩

/-- A row is skipped exactly when `row["amenity"] or row["healthcare"]`
is NaN — since `bool(float("nan"))` is `True`, that means exactly when the
`amenity` cell is NaN and the `healthcare` cell is NaN, or the truthy
result of the `or` is itself NaN. -/
lemma processRow_skip {r : Row} :
    processRow r = .ok none ↔ pyOr r.amenity r.healthcare = .nan := by
  constructor
  · intro h
    unfold processRow at h
    split at h
    next hg => exact hg
    next ts hg =>
      split at h
      · cases h
      · split at h
        · cases h
        · split at h
          · cases h
          · split at h
            · cases h
            · split at h
              · cases h
              · split at h
                · cases h
                · cases h
  · intro hg
    unfold processRow
    rw [hg]

/-- A successful whole run evaluates every row to a successful per-row
result. -/
lemma processRow_ok_of_mem {rows : List Row} {fs : List JVal} {r : Row}
    (h : process_healthsites rows = .ok fs) (hr : r ∈ rows) :
    ∃ x, processRow r = .ok x := by
  induction rows generalizing fs with
  | nil => cases hr
  | cons a rest ih =>
    unfold process_healthsites at h
    rcases List.mem_cons.mp hr with hra | hrr
    · subst hra
      split at h
      · cases h
      next x hx => exact ⟨none, hx⟩
      next f hx =>
        exact ⟨some f, hx⟩
    · split at h
      · cases h
      next hx => exact ih h hrr
      next f hx =>
        split at h
        · cases h
        next fs2 hrest =>
          exact ih hrest hrr

/-- A successful run produces exactly the in-order per-row results of the
non-skipped rows. -/
lemma process_healthsites_eq_filterMap {rows : List Row} {fs : List JVal}
    (h : process_healthsites rows = .ok fs) :
    fs = rows.filterMap rowOpt := by
  induction rows generalizing fs with
  | nil =>
    unfold process_healthsites at h
    injection h with h
    simp [h.symm]
  | cons a rest ih =>
    unfold process_healthsites at h
    split at h
    · cases h
    next ha =>
      rw [List.filterMap_cons]
      have hro : rowOpt a = none := by unfold rowOpt; rw [ha]
      rw [hro]
      exact ih h
    next f ha =>
      split at h
      · cases h
      next fs2 hrest =>
        injection h with h
        rw [List.filterMap_cons]
        have hro : rowOpt a = some f := by unfold rowOpt; rw [ha]
        rw [hro, ← h]
        rw [ih hrest]

/-- Every facility of a successful run is the successful per-row result of
some input row. -/
lemma mem_of_processed {rows : List Row} {fs : List JVal} {f : JVal}
    (h : process_healthsites rows = .ok fs) (hf : f ∈ fs) :
    ∃ r, r ∈ rows ∧ processRow r = .ok (some f) := by
  rw [process_healthsites_eq_filterMap h] at hf
  rcases List.mem_filterMap.mp hf with ⟨r, hr, hro⟩
  refine ⟨r, hr, ?_⟩
  unfold rowOpt at hro
  split at hro
  next g hg =>
    injection hro with hro
    rw [← hro]; exact hg
  next hg => cases hro

/-- Incrementing a counter key raises the total of the counts by one. -/
lemma sumCounts_countIncr (k : String) (m : List (String × Nat)) :
    ((countIncr k m).map Prod.snd).sum = ((m.map Prod.snd).sum) + 1 := by
  induction m with
  | nil => simp [countIncr]
  | cons a rest ih =>
    unfold countIncr
    by_cases hk : a.1 = k
    · simp only [hk]
      simp [Nat.add_assoc, Nat.add_comm 1]
    · simp only [if_neg hk]
      simp [ih]
      omega

/-- Folding counter increments over a list adds its length to the total. -/
lemma sumCounts_fold (key : JVal → String) (fs : List JVal)
    (m : List (String × Nat)) :
    (((fs.foldl (fun acc f => countIncr (key f) acc) m).map Prod.snd).sum)
      = ((m.map Prod.snd).sum) + fs.length := by
  induction fs generalizing m with
  | nil => simp
  | cons f rest ih =>
    simp only [List.foldl_cons, List.length_cons]
    rw [ih (countIncr (key f) m), sumCounts_countIncr]
    omega

/-! Lookup helpers for sparse-filtered facilities. -/

/-- Looking a key up in a filtered entry list skips entries with other
keys, kept or not. -/
lemma lookup_filter_cons_ne {p : String × JVal → Bool} {k k' : String}
    {v : JVal} {rest : List (String × JVal)} (h : (k == k') = false) :
    List.lookup k (((k', v) :: rest).filter p)
      = List.lookup k (rest.filter p) := by
  cases hp : p (k', v) <;> simp [List.filter_cons, hp, List.lookup_cons, h]

/-- Looking a key up in a filtered entry list finds a kept entry with that
key at the front. -/
lemma lookup_filter_cons_self {p : String × JVal → Bool} {k : String}
    {v : JVal} {rest : List (String × JVal)} (hv : p (k, v) = true) :
    List.lookup k (((k, v) :: rest).filter p) = some v := by
  simp [List.filter_cons, hv, List.lookup_cons]

/-- The `location` sub-section always survives the sparse filter (it always
has five entries), with its built contents untouched. -/
lemma jLookup_sparse_location (r : Row) (ts : String)
    (lat lon beds sdoc snur comp : JVal) :
    jLookup (sparseFilter (buildFacility r ts lat lon beds sdoc snur comp))
        "location"
      = some (.obj
          [ ("latitude", lat),
            ("longitude", lon),
            ("city", optStr r.addr_city),
            ("address", optStr r.addr_street),
            ("postcode", optStr r.addr_postcode) ]) := by
  simp only [sparseFilter, buildFacility, jLookup]
  rw [lookup_filter_cons_ne (by decide), lookup_filter_cons_ne (by decide),
    lookup_filter_cons_ne (by decide), lookup_filter_cons_self (by rfl)]

/-- The `details` sub-section always survives the sparse filter (it always
has eight entries), with its built contents untouched. -/
lemma jLookup_sparse_details (r : Row) (ts : String)
    (lat lon beds sdoc snur comp : JVal) :
    jLookup (sparseFilter (buildFacility r ts lat lon beds sdoc snur comp))
        "details"
      = some (.obj
          [ ("operator", optStr r.operator),
            ("operator_type", optStr r.operator_type),
            ("operational_status", optStr r.operational_status),
            ("opening_hours", optStr r.opening_hours),
            ("beds", beds),
            ("staff_doctors", sdoc),
            ("staff_nurses", snur),
            ("specialities", specialitiesVal r.speciality) ]) := by
  simp only [sparseFilter, buildFacility, jLookup]
  rw [lookup_filter_cons_ne (by decide), lookup_filter_cons_ne (by decide),
    lookup_filter_cons_ne (by decide), lookup_filter_cons_ne (by decide),
    lookup_filter_cons_self (by rfl)]

/-- The `services` sub-section always survives the sparse filter (it
always has four entries), with its built contents untouched. -/
lemma jLookup_sparse_services (r : Row) (ts : String)
    (lat lon beds sdoc snur comp : JVal) :
    jLookup (sparseFilter (buildFacility r ts lat lon beds sdoc snur comp))
        "services"
      = some (.obj
          [ ("dispensing", optStr r.dispensing),
            ("emergency", optStr r.emergency),
            ("wheelchair", optStr r.wheelchair),
            ("insurance", optStr r.insurance) ]) := by
  simp only [sparseFilter, buildFacility, jLookup]
  rw [lookup_filter_cons_ne (by decide), lookup_filter_cons_ne (by decide),
    lookup_filter_cons_ne (by decide), lookup_filter_cons_ne (by decide),
    lookup_filter_cons_ne (by decide), lookup_filter_cons_self (by rfl)]

/-- The `infrastructure` sub-section always survives the sparse filter (it
always has two entries), with its built contents untouched. -/
lemma jLookup_sparse_infrastructure (r : Row) (ts : String)
    (lat lon beds sdoc snur comp : JVal) :
    jLookup (sparseFilter (buildFacility r ts lat lon beds sdoc snur comp))
        "infrastructure"
      = some (.obj
          [ ("water_source", optStr r.water_source),
            ("electricity", optStr r.electricity) ]) := by
  simp only [sparseFilter, buildFacility, jLookup]
  rw [lookup_filter_cons_ne (by decide), lookup_filter_cons_ne (by decide),
    lookup_filter_cons_ne (by decide), lookup_filter_cons_ne (by decide),
    lookup_filter_cons_ne (by decide), lookup_filter_cons_ne (by decide),
    lookup_filter_cons_self (by rfl)]

/-- The `metadata` sub-section always survives the sparse filter (it
always has three entries), with its built contents untouched. -/
lemma jLookup_sparse_metadata (r : Row) (ts : String)
    (lat lon beds sdoc snur comp : JVal) :
    jLookup (sparseFilter (buildFacility r ts lat lon beds sdoc snur comp))
        "metadata"
      = some (.obj
          [ ("completeness", comp),
            ("osm_id", .str (pyStr r.osm_id)),
            ("last_updated", optStr r.changeset_timestamp) ]) := by
  simp only [sparseFilter, buildFacility, jLookup]
  rw [lookup_filter_cons_ne (by decide), lookup_filter_cons_ne (by decide),
    lookup_filter_cons_ne (by decide), lookup_filter_cons_ne (by decide),
    lookup_filter_cons_ne (by decide), lookup_filter_cons_ne (by decide),
    lookup_filter_cons_ne (by decide), lookup_filter_cons_self (by rfl)]

/-! Concrete rows and facilities. -/

/-- A row whose `amenity` cell is blank but whose `healthcare` cell is
filled — the configuration the fallback in
`row["amenity"] or row["healthcare"]` is meant to handle. -/
def rowHealthcareOnly : Row :=
  { blankRow with uuid := .str "x1", healthcare := .str "clinic" }

/-- The example input row of the specification: `uuid "abc"`,
`amenity "pharmacy"`, blank name, coordinates, city, all other cells
blank. -/
def exampleRow : Row :=
  { blankRow with
      uuid := .str "abc"
      amenity := .str "pharmacy"
      Lattitude := .str "-13.9"
      Longitude := .str "33.7"
      addr_city := .str "Lilongwe" }

/-- The entry list of the facility the script actually produces for
`exampleRow` (nothing is removed by the sparse filter: every top-level
value is truthy, and the sub-sections keep their `None` entries). -/
def exampleKvs : List (String × JVal) :=
  [ ("id", .str "abc"),
    ("name", .str "Unnamed pharmacy"),
    ("type", .str "pharmacy"),
    ("location", .obj
      [ ("latitude", .num (-(mkRat 139 10))),
        ("longitude", .num (mkRat 337 10)),
        ("city", .str "Lilongwe"),
        ("address", .null),
        ("postcode", .null) ]),
    ("details", .obj
      [ ("operator", .null),
        ("operator_type", .null),
        ("operational_status", .null),
        ("opening_hours", .null),
        ("beds", .null),
        ("staff_doctors", .null),
        ("staff_nurses", .null),
        ("specialities", .list []) ]),
    ("services", .obj
      [ ("dispensing", .null),
        ("emergency", .null),
        ("wheelchair", .null),
        ("insurance", .null) ]),
    ("infrastructure", .obj
      [ ("water_source", .null),
        ("electricity", .null) ]),
    ("metadata", .obj
      [ ("completeness", .num 0),
        ("osm_id", .str "nan"),
        ("last_updated", .null) ]) ]

/-- The facility the script actually produces for `exampleRow`. -/
def exampleFacility : JVal := .obj exampleKvs

/-- The facility the specification example claims for `exampleRow`: only
`id`, `name`, `type`, a three-entry `location` and a two-entry `metadata`,
with no null-valued entries anywhere. -/
def exampleClaimedFacility : JVal :=
  .obj
    [ ("id", .str "abc"),
      ("name", .str "Unnamed pharmacy"),
      ("type", .str "pharmacy"),
      ("location", .obj
        [ ("latitude", .num (-(mkRat 139 10))),
          ("longitude", .num (mkRat 337 10)),
          ("city", .str "Lilongwe") ]),
      ("metadata", .obj
        [ ("completeness", .num 0),
          ("osm_id", .str "nan") ]) ]

example : processRow exampleRow = .ok (some exampleFacility) := by rfl

/-! Claim theorems. -/

/-- C1: the spec says a Facility is produced iff at least one of
`amenity` / `healthcare` is non-blank, with `facility_type` falling back to
`healthcare` when `amenity` is absent.  The code computes
`row["amenity"] or row["healthcare"]`; since a blank `amenity` cell is NaN
and NaN is truthy, the `or` returns NaN and `pd.isna` then skips the row:
on a row with blank `amenity` and `healthcare = "clinic"` the run yields no
facility at all, against the intended fallback. -/
theorem c1_healthcare_fallback_dead :
    pd_isna rowHealthcareOnly.amenity = true ∧
    pd_isna rowHealthcareOnly.healthcare = false ∧
    pyOr rowHealthcareOnly.amenity rowHealthcareOnly.healthcare = .nan ∧
    process_healthsites [rowHealthcareOnly] = .ok [] :=
  ⟨rfl, rfl, rfl, rfl⟩

/-- C2 counterexample: on the specification example row, the record the
code produces is `exampleFacility`, which still has the top-level keys
`details`, `services` and `infrastructure` and keeps null-valued entries
inside sub-sections (for instance `location.address`), so it is not the
claimed sparse record `exampleClaimedFacility`. -/
theorem c2_counterexample :
    processRow exampleRow = .ok (some exampleFacility) ∧
    jLookup exampleFacility "details" ≠ none ∧
    jLookup (jGetD exampleFacility "location" .null) "address"
      = some .null ∧
    jLookup exampleClaimedFacility "details" = none :=
  ⟨rfl, fun h => Option.noConfusion h, rfl, rfl⟩

/-- The shape every produced facility has: it is the cleanup filter of the
built record applied at the top level only — an entry of the built record
survives exactly when its value is truthy and is kept unchanged — and
every one of the five sub-sections survives in full, with all its built
entries, nulls, empty lists and zeros included. -/
def ShallowFiltered (f : JVal) : Prop :=
  ∃ r ts lat lon beds sdoc snur comp bkvs,
    buildFacility r ts lat lon beds sdoc snur comp = JVal.obj bkvs ∧
    f = JVal.obj (bkvs.filter (fun kv => truthy kv.2)) ∧
    jLookup f "location" = some (.obj
      [ ("latitude", lat),
        ("longitude", lon),
        ("city", optStr r.addr_city),
        ("address", optStr r.addr_street),
        ("postcode", optStr r.addr_postcode) ]) ∧
    jLookup f "details" = some (.obj
      [ ("operator", optStr r.operator),
        ("operator_type", optStr r.operator_type),
        ("operational_status", optStr r.operational_status),
        ("opening_hours", optStr r.opening_hours),
        ("beds", beds),
        ("staff_doctors", sdoc),
        ("staff_nurses", snur),
        ("specialities", specialitiesVal r.speciality) ]) ∧
    jLookup f "services" = some (.obj
      [ ("dispensing", optStr r.dispensing),
        ("emergency", optStr r.emergency),
        ("wheelchair", optStr r.wheelchair),
        ("insurance", optStr r.insurance) ]) ∧
    jLookup f "infrastructure" = some (.obj
      [ ("water_source", optStr r.water_source),
        ("electricity", optStr r.electricity) ]) ∧
    jLookup f "metadata" = some (.obj
      [ ("completeness", comp),
        ("osm_id", .str (pyStr r.osm_id)),
        ("last_updated", optStr r.changeset_timestamp) ])

/-- C2 (amended): for every produced Facility, only top-level entries with
falsy values are omitted — kept entries are unchanged and the sub-sections
survive in full, retaining their `None`, empty and zero fields — and on
the spec example row the produced record is exactly `exampleFacility`: id
`"abc"`, name `"Unnamed pharmacy"`, type `"pharmacy"`, a five-entry
`location` with null `address` / `postcode`, a full `details` section of
nulls with an empty `specialities` list, full `services` and
`infrastructure` sections of nulls, and `metadata` with `completeness 0`,
`osm_id "nan"` and null `last_updated`. -/
theorem c2_shallow_filter :
    (∀ rows fs f, process_healthsites rows = .ok fs → f ∈ fs →
      ShallowFiltered f) ∧
    processRow exampleRow = .ok (some exampleFacility) := by
  constructor
  · intro rows fs f h hf
    obtain ⟨r, _, hro⟩ := mem_of_processed h hf
    obtain ⟨ts, lat, lon, beds, sdoc, snur, comp, _, _, _, _, _, _, _, hfe⟩ :=
      processRow_ok_some hro
    subst hfe
    exact ⟨r, ts, lat, lon, beds, sdoc, snur, comp, _, rfl, rfl,
      jLookup_sparse_location r ts lat lon beds sdoc snur comp,
      jLookup_sparse_details r ts lat lon beds sdoc snur comp,
      jLookup_sparse_services r ts lat lon beds sdoc snur comp,
      jLookup_sparse_infrastructure r ts lat lon beds sdoc snur comp,
      jLookup_sparse_metadata r ts lat lon beds sdoc snur comp⟩
  · rfl

/-- C2 witness: the universal part instantiated at the one-row run and the
facility it produces. -/
theorem c2_shallow_filter_witness :
    process_healthsites [exampleRow] = .ok [exampleFacility] ∧
    exampleFacility ∈ [exampleFacility] ∧
    ShallowFiltered exampleFacility :=
  ⟨rfl, List.Mem.head _,
    c2_shallow_filter.1 [exampleRow] [exampleFacility] exampleFacility rfl
      (List.Mem.head _)⟩

/-- C3 counterexample: the example row has a blank `speciality`, and the
facility produced for it still contains `specialities = []` inside
`details` — the empty list is not removed, because the cleanup step
filters only top-level keys. -/
theorem c3_counterexample :
    processRow exampleRow = .ok (some exampleFacility) ∧
    exampleFacility ∈ [exampleFacility] ∧
    jLookup (jGetD exampleFacility "details" (.obj [])) "specialities"
      = some (.list []) :=
  ⟨rfl, List.Mem.head _, rfl⟩

/-- C3 (amended): for every row whose `speciality` cell is absent or blank
and which yields a Facility, the `specialities` value of the record is the empty
list, and it remains inside `details` in the produced record — the sparse
filter removes falsy values at the top level only. -/
theorem c3_specialities_empty_retained {r : Row} {f : JVal}
    (hs : r.speciality = .nan ∨ r.speciality = .str "")
    (h : processRow r = .ok (some f)) :
    jLookup (jGetD f "details" (.obj [])) "specialities"
      = some (.list []) := by
  obtain ⟨ts, lat, lon, beds, sdoc, snur, comp, _, _, _, _, _, _, _, hf⟩ :=
    processRow_ok_some h
  subst hf
  rw [jGetD, jLookup_sparse_details, Option.getD_some]
  have hsv : specialitiesVal r.speciality = .list [] := by
    rcases hs with hs | hs <;> rw [hs] <;> rfl
  simp [jLookup, List.lookup_cons, hsv]

/-- C3 witness: the example row has a blank `speciality` and its produced
facility retains the empty `specialities` list. -/
theorem c3_witness :
    (exampleRow.speciality = .nan ∨ exampleRow.speciality = .str "") ∧
    processRow exampleRow = .ok (some exampleFacility) ∧
    jLookup (jGetD exampleFacility "details" (.obj [])) "specialities"
      = some (.list []) :=
  ⟨Or.inl rfl, rfl,
    c3_specialities_empty_retained (r := exampleRow) (f := exampleFacility)
      (Or.inl rfl) rfl⟩

/-- A non-blank cell that does not parse as a float makes `floatOpt`
fail. -/
lemma floatOpt_str_error {s : String} (h : parseFloat s = none) :
    ∃ e, floatOpt (.str s) = .error e := by
  simp [floatOpt, h]

/-- A non-blank cell that does not parse as an int makes `intOpt` fail. -/
lemma intOpt_str_error {s : String} (hs : s ≠ "") (h : parseInt s = none) :
    ∃ e, intOpt (.str s) = .error e := by
  simp [intOpt, hs, h]

/-- A non-blank cell that does not parse as a float makes
`completenessVal` fail. -/
lemma completenessVal_str_error {s : String} (h : parseFloat s = none) :
    ∃ e, completenessVal (.str s) = .error e := by
  simp [completenessVal, h]

/-- A row that would be skipped never evaluates its numeric cells: a row
with blank `amenity` and `healthcare` but a non-blank, non-numeric `beds`
cell. -/
def rowSkippedBadBeds : Row := { blankRow with beds := .str "abc" }

/-- C4 counterexample: this input contains a row with a non-blank,
non-numeric value in the numeric field `beds`, yet the run does not fail —
the row is skipped by the facility-type gate before any numeric parse, and
the run returns the (empty) facility sequence. -/
theorem c4_counterexample :
    rowSkippedBadBeds.beds = .str "abc" ∧
    parseInt "abc" = none ∧
    process_healthsites [rowSkippedBadBeds] = .ok [] :=
  ⟨rfl, by decide, rfl⟩

/-- C4 (amended): for every input containing some row that passes the
facility-type gate and has a non-blank, non-numeric value in one of the
numeric fields, the run fails as a whole — the parse error is not caught
and no facility sequence is returned. -/
theorem c4_bad_numeric_fails {rows : List Row} {r : Row}
    (hr : r ∈ rows)
    (hgate : pd_isna (pyOr r.amenity r.healthcare) = false)
    (hbad :
      (∃ s, r.Lattitude = .str s ∧ parseFloat s = none) ∨
      (∃ s, r.Longitude = .str s ∧ parseFloat s = none) ∨
      (∃ s, r.completeness = .str s ∧ parseFloat s = none) ∨
      (∃ s, r.beds = .str s ∧ s ≠ "" ∧ parseInt s = none) ∨
      (∃ s, r.staff_doctors = .str s ∧ s ≠ "" ∧ parseInt s = none) ∨
      (∃ s, r.staff_nurses = .str s ∧ s ≠ "" ∧ parseInt s = none)) :
    ∃ e, process_healthsites rows = .error e := by
  cases hres : process_healthsites rows with
  | error e => exact ⟨e, rfl⟩
  | ok fs =>
    exfalso
    obtain ⟨x, hx⟩ := processRow_ok_of_mem hres hr
    cases x with
    | none =>
      rw [processRow_skip.mp hx] at hgate
      exact Bool.noConfusion hgate
    | some f =>
      obtain ⟨ts, lat, lon, beds, sdoc, snur, comp,
        hg, h1, h2, h3, h4, h5, h6, _⟩ := processRow_ok_some hx
      rcases hbad with ⟨s, hc, hp⟩ | ⟨s, hc, hp⟩ | ⟨s, hc, hp⟩ |
        ⟨s, hc, hne, hp⟩ | ⟨s, hc, hne, hp⟩ | ⟨s, hc, hne, hp⟩
      · obtain ⟨e, he⟩ := floatOpt_str_error hp
        rw [hc, he] at h1; cases h1
      · obtain ⟨e, he⟩ := floatOpt_str_error hp
        rw [hc, he] at h2; cases h2
      · obtain ⟨e, he⟩ := completenessVal_str_error hp
        rw [hc, he] at h6; cases h6
      · obtain ⟨e, he⟩ := intOpt_str_error hne hp
        rw [hc, he] at h3; cases h3
      · obtain ⟨e, he⟩ := intOpt_str_error hne hp
        rw [hc, he] at h4; cases h4
      · obtain ⟨e, he⟩ := intOpt_str_error hne hp
        rw [hc, he] at h5; cases h5

/-- A row that passes the gate but has a non-numeric `Lattitude` cell. -/
def rowBadLat : Row :=
  { blankRow with amenity := .str "clinic", Lattitude := .str "abc" }

/-- C4 witness: a one-row input with a non-numeric latitude aborts the
run. -/
theorem c4_witness :
    rowBadLat ∈ [rowBadLat] ∧
    pd_isna (pyOr rowBadLat.amenity rowBadLat.healthcare) = false ∧
    (rowBadLat.Lattitude = .str "abc" ∧ parseFloat "abc" = none) ∧
    ∃ e, process_healthsites [rowBadLat] = .error e :=
  ⟨List.Mem.head _, rfl, ⟨rfl, by decide⟩,
    @c4_bad_numeric_fails [rowBadLat] rowBadLat (List.Mem.head _) rfl
      (Or.inl ⟨"abc", rfl, by decide⟩)⟩

/-- C5: the summary is computed over exactly the produced sequence —
`total_facilities` is its length, and the `facility_types` counts add up
to `total_facilities` (each facility increments exactly one key by one). -/
theorem c5_summary_consistency {rows : List Row} {fs : List JVal}
    (h : process_healthsites rows = .ok fs) :
    (mkSummary fs).total_facilities = fs.length ∧
    (((mkSummary fs).facility_types.map Prod.snd).sum)
      = (mkSummary fs).total_facilities := by
  refine ⟨rfl, ?_⟩
  show ((facilityTypes fs).map Prod.snd).sum = fs.length
  unfold facilityTypes
  rw [sumCounts_fold]
  simp

/-- C5 witness: a concrete mixed input (one produced facility, one skipped
row). -/
theorem c5_witness :
    process_healthsites [exampleRow, blankRow] = .ok [exampleFacility] ∧
    (mkSummary [exampleFacility]).total_facilities = [exampleFacility].length ∧
    (((mkSummary [exampleFacility]).facility_types.map Prod.snd).sum)
      = (mkSummary [exampleFacility]).total_facilities :=
  ⟨rfl,
    (@c5_summary_consistency [exampleRow, blankRow] [exampleFacility] rfl).1,
    (@c5_summary_consistency [exampleRow, blankRow] [exampleFacility] rfl).2⟩

/-- A truthy value is none of the falsy shapes. -/
lemma truthy_ne {v : JVal} (hv : truthy v = true) :
    v ≠ .null ∧ v ≠ .str "" ∧ v ≠ .list [] ∧ v ≠ .obj [] ∧ v ≠ .num 0 := by
  cases v with
  | null => cases hv
  | num q =>
    simp only [truthy, decide_eq_true_eq] at hv
    refine ⟨by simp, by simp, by simp, by simp, ?_⟩
    simp [hv]
  | str s =>
    simp only [truthy, decide_eq_true_eq] at hv
    · refine ⟨by simp, ?_, by simp, by simp, by simp⟩
      simp
      intro hcon
      exact hv hcon
  | list xs =>
    simp only [truthy, Bool.not_eq_true'] at hv
    refine ⟨by simp, by simp, ?_, by simp, by simp⟩
    simp
    intro hcon
    subst hcon
    cases hv
  | obj kvs =>
    simp only [truthy, Bool.not_eq_true'] at hv
    refine ⟨by simp, by simp, by simp, ?_, by simp⟩
    simp
    intro hcon
    subst hcon
    cases hv

/-- C6: in every produced facility, every top-level entry kept by the
sparse filter is truthy — no top-level key maps to `None`, an empty
string, an empty list, an empty mapping, or numeric zero. -/
theorem c6_sparseness {rows : List Row} {fs : List JVal} {f : JVal}
    {kvs : List (String × JVal)} {k : String} {v : JVal}
    (h : process_healthsites rows = .ok fs) (hf : f ∈ fs)
    (hkvs : f = JVal.obj kvs) (hkv : (k, v) ∈ kvs) :
    v ≠ .null ∧ v ≠ .str "" ∧ v ≠ .list [] ∧ v ≠ .obj [] ∧ v ≠ .num 0 := by
  obtain ⟨r, _, hro⟩ := mem_of_processed h hf
  obtain ⟨ts, lat, lon, beds, sdoc, snur, comp, _, _, _, _, _, _, _, hfe⟩ :=
    processRow_ok_some hro
  subst hfe
  unfold sparseFilter buildFacility at hkvs
  injection hkvs with hkvs
  rw [← hkvs] at hkv
  have := List.of_mem_filter hkv
  exact truthy_ne this

/-- C6 witness: the first entry of the example facility. -/
theorem c6_witness :
    process_healthsites [exampleRow] = .ok [exampleFacility] ∧
    exampleFacility ∈ [exampleFacility] ∧
    exampleFacility = JVal.obj exampleKvs ∧
    ("id", JVal.str "abc") ∈ exampleKvs ∧
    (JVal.str "abc" ≠ .null ∧ JVal.str "abc" ≠ .str "" ∧
      JVal.str "abc" ≠ .list [] ∧ JVal.str "abc" ≠ .obj [] ∧
      JVal.str "abc" ≠ .num 0) :=
  ⟨rfl, List.Mem.head _, rfl, List.Mem.head _,
    @c6_sparseness [exampleRow] [exampleFacility] exampleFacility exampleKvs
      "id" (JVal.str "abc") rfl (List.Mem.head _) rfl (List.Mem.head _)⟩

/-- C7: a successful run produces exactly the in-order per-row results of
the rows, with skipped rows removed and no reordering — the sequence is a
`filterMap` of the input row list. -/
theorem c7_order_preservation {rows : List Row} {fs : List JVal}
    (h : process_healthsites rows = .ok fs) :
    fs = rows.filterMap rowOpt :=
  process_healthsites_eq_filterMap h

/-- C7 witness: one skipped row followed by one produced row. -/
theorem c7_witness :
    process_healthsites [blankRow, exampleRow] = .ok [exampleFacility] ∧
    [exampleFacility] = [blankRow, exampleRow].filterMap rowOpt :=
  ⟨rfl, @c7_order_preservation [blankRow, exampleRow] [exampleFacility] rfl⟩

/-- C8: the `sample_facilities` list of the sample output is the first fifty records
of the produced sequence, so its length is `min 50 total_facilities`. -/
theorem c8_sample_bounded {rows : List Row} {fs : List JVal}
    (h : process_healthsites rows = .ok fs) :
    jLookup (compact_version fs) "sample_facilities"
      = some (.list (fs.take 50)) ∧
    (fs.take 50).length = min 50 fs.length := by
  constructor
  · simp [compact_version, jLookup, List.lookup_cons]
  · simp

/-- C8 witness: the one-facility run. -/
theorem c8_witness :
    process_healthsites [exampleRow] = .ok [exampleFacility] ∧
    (jLookup (compact_version [exampleFacility]) "sample_facilities"
        = some (.list ([exampleFacility].take 50)) ∧
      ([exampleFacility].take 50).length = min 50 [exampleFacility].length) :=
  ⟨rfl, @c8_sample_bounded [exampleRow] [exampleFacility] rfl⟩

/-- C9: the pipeline is a pure function of the input row list — two runs on
identical input produce the same facility sequence, the same summary
structures and identical serialized output files. -/
theorem c9_deterministic {rows1 rows2 : List Row} (h : rows1 = rows2) :
    process_healthsites rows1 = process_healthsites rows2 ∧
    fullOutput rows1 = fullOutput rows2 ∧
    compactOutput rows1 = compactOutput rows2 ∧
    runOutputs rows1 = runOutputs rows2 := by
  subst h
  exact ⟨rfl, rfl, rfl, rfl⟩

/-- C9 witness: the one-row input, run twice. -/
theorem c9_witness :
    ([exampleRow] : List Row) = [exampleRow] ∧
    (process_healthsites [exampleRow] = process_healthsites [exampleRow] ∧
      fullOutput [exampleRow] = fullOutput [exampleRow] ∧
      compactOutput [exampleRow] = compactOutput [exampleRow] ∧
      runOutputs [exampleRow] = runOutputs [exampleRow]) :=
  ⟨rfl, c9_deterministic rfl⟩

/-- The characterization predicate for C10: the `location.latitude` entry of the facility is present and holds a nonzero number.  It never
examines the longitude. -/
def latNonzero (f : JVal) : Bool :=
  match jLookup (jGetD f "location" (.obj [])) "latitude" with
  | some (.num q) => decide (q ≠ 0)
  | _ => false

/-- Pointwise-equal predicates count the same. -/
lemma countP_congr_list {p q : JVal → Bool} :
    ∀ {l : List JVal}, (∀ a ∈ l, p a = q a) → l.countP p = l.countP q
  | [], _ => rfl
  | a :: l, h => by
    rw [List.countP_cons, List.countP_cons,
      h a (List.Mem.head _),
      countP_congr_list (fun b hb => h b (List.Mem.tail _ hb))]

/-- C10: `summary.data_quality.with_coordinates` counts exactly the
produced facilities whose `location.latitude` entry holds a nonzero
number — a null (absent) or zero latitude is not counted, and the counting
predicate reads only the latitude entry, never the longitude. -/
theorem c10_with_coordinates {rows : List Row} {fs : List JVal}
    (h : process_healthsites rows = .ok fs) :
    (mkSummary fs).with_coordinates = fs.countP latNonzero := by
  show withCoordinates fs = fs.countP latNonzero
  unfold withCoordinates
  apply countP_congr_list
  intro f hf
  obtain ⟨r, _, hro⟩ := mem_of_processed h hf
  obtain ⟨ts, lat, lon, beds, sdoc, snur, comp, _, h1, _, _, _, _, _, hfe⟩ :=
    processRow_ok_some hro
  subst hfe
  have hloc := jLookup_sparse_location r ts lat lon beds sdoc snur comp
  simp only [latNonzero, jGetD]
  rw [hloc]
  simp only [Option.getD_some]
  have hlat : jLookup (JVal.obj
      [ ("latitude", lat),
        ("longitude", lon),
        ("city", optStr r.addr_city),
        ("address", optStr r.addr_street),
        ("postcode", optStr r.addr_postcode) ]) "latitude" = some lat := by
    simp [jLookup, List.lookup_cons]
  rw [hlat]
  simp only [Option.getD_some]
  rcases floatOpt_ok h1 with hnull | ⟨q, hq⟩
  · subst hnull; rfl
  · subst hq; rfl

/-- C10 witness: the one-facility run (nonzero latitude). -/
theorem c10_witness :
    process_healthsites [exampleRow] = .ok [exampleFacility] ∧
    (mkSummary [exampleFacility]).with_coordinates
      = [exampleFacility].countP latNonzero :=
  ⟨rfl, @c10_with_coordinates [exampleRow] [exampleFacility] rfl⟩
